import Mathlib

/-!
Verification of the traffic-monitoring backend's update-coordination core.

The definitions below are a shallow embedding of the repository's
JavaScript sources:
  * `routes/signals.js`, `routes/cameras.js` — REST mutation handlers;
  * `socketHandlers.js` — socket event handlers (`deviceConnect`,
    `deviceData`, `cameraControl`, `signalControl`) and
    `processTrafficAnalytics`;
  * `routes/dashboard.js` — the `GET /overview` hourly-trend aggregation;
  * `models/Camera.js`, `models/Signal.js`, `models/Analytics.js` — record
    shapes; `index.js` — the background simulator (`simulateUpdates`).

Modelling conventions:
  * The Mongo/Mongoose store is an external collaborator and is modelled
    as an abstract list store honouring the handlers' `find` / `$set` /
    `delete` contracts verbatim (fields named in a `$set` are written;
    a field whose request value is `undefined` is stripped from the
    `$set`, which Mongoose does by default, hence the `Option` bodies).
  * Timestamps are naturals counting milliseconds; the `(year, month,
    day, hour)` group key of the `$group` stage is modelled as the
    epoch-hour index `ts / 3600000`, which induces the same partition
    for calendar timestamps, and `$hour` is its value modulo 24.
  * JavaScript truthiness of an optional string (`if (mode || ...)`,
    `x || 'Low'`) is modelled by `jsTruthy` / `jsOrStr`.
  * A database call that throws is modelled by a `dbFails` flag on the
    socket handlers: when set, the handler takes its `catch` branch.
-/

/-- Geographic coordinates subdocument `{ lat, lng }`. -/
structure Coordinates where
  lat : Rat
  lng : Rat
deriving DecidableEq

/-- Vehicle-type breakdown `{ cars, motorcycles, trucks }`. -/
structure VehicleTypes where
  cars : Nat
  motorcycles : Nat
  trucks : Nat
deriving DecidableEq

/-- Camera settings subdocument of `models/Camera.js`. -/
structure CameraSettings where
  resolution : String
  frameRate : Nat
  nightMode : Bool
  brightness : Nat
  contrast : Nat
deriving DecidableEq

/-- One phase entry of a signal's settings (`settings.phases` items). -/
structure PhaseDef where
  phaseName : String
  duration : Nat
deriving DecidableEq

/-- One weekly schedule entry (`settings.schedule.timings` items). -/
structure ScheduleTiming where
  dayOfWeek : Nat
  startTime : String
  endTime : String
  mode : String
deriving DecidableEq

/-- Signal schedule subdocument (`settings.schedule`). -/
structure Schedule where
  enabled : Bool
  timings : List ScheduleTiming
deriving DecidableEq

/-- Signal settings subdocument of `models/Signal.js`. -/
structure SignalSettings where
  phases : List PhaseDef
  schedule : Schedule
deriving DecidableEq

/-- A device telemetry metrics payload as pushed over `deviceData` and as
stored wholesale in a device record's `metrics` field.  All fields are
optional: the push is a free-form object. -/
structure Metrics where
  vehicleCount : Option Nat
  congestionLevel : Option String
  averageSpeed : Option Rat
  vehicleTypes : Option VehicleTypes
  junctionId : Option String
  currentPhase : Option String
  remainingTime : Option String
deriving DecidableEq

/-- A camera record (`models/Camera.js`; `lastUpdate` is the extra field of
the `index.js` variant schema touched by the simulator). -/
structure Camera where
  id : String
  name : String
  location : String
  coordinates : Option Coordinates
  ipAddress : Option String
  model : String
  firmware : String
  status : String
  lastSeen : Option Nat
  lastUpdate : Option Nat
  metrics : Option Metrics
  settings : CameraSettings
  createdAt : Nat
deriving DecidableEq

/-- A signal record (`models/Signal.js`; `lastUpdate` from the `index.js`
variant schema; `metrics` is written by the `deviceData` handler's `$set`). -/
structure Signal where
  id : String
  name : String
  location : String
  coordinates : Option Coordinates
  ipAddress : Option String
  status : String
  mode : String
  currentPhase : String
  remainingTime : String
  congestionLevel : String
  lastSeen : Option Nat
  lastUpdate : Option Nat
  metrics : Option Metrics
  settings : SignalSettings
  createdAt : Nat
deriving DecidableEq

/-- One stored analytics observation (`models/Analytics.js`). -/
structure Sample where
  ts : Nat
  trafficVolume : Nat
  congestionLevel : String
  averageSpeed : Rat
  vehicleTypes : VehicleTypes
  junctionId : Option String
deriving DecidableEq

/-- A flat value as it appears as one field of the emitted analytics rollup
object (`_id: null`, averaged numbers, pushed lists). -/
inductive AValue where
  | vnull
  | vnum (q : Rat)
  | vstrList (xs : List String)
  | vvtList (xs : List VehicleTypes)
deriving DecidableEq

/-- Sparse `$set` body of `PUT /signals/:id` (`routes/signals.js`): the
destructured request fields; an absent field is `none` and is stripped
from the `$set`. -/
structure SignalPutBody where
  name : Option String
  location : Option String
  coordinates : Option Coordinates
  ipAddress : Option String
  status : Option String
  mode : Option String
  currentPhase : Option String
  remainingTime : Option String
deriving DecidableEq

/-- Sparse `$set` body of `PUT /cameras/:id` (`routes/cameras.js`). -/
structure CameraPutBody where
  name : Option String
  location : Option String
  coordinates : Option Coordinates
  ipAddress : Option String
  status : Option String
  settings : Option CameraSettings
deriving DecidableEq

/-- The destination of one socket emission: the originating connection
(`socket.emit`), a named room (`io.to(g).emit`), or all clients. -/
inductive Target where
  | sender
  | group (g : String)
  | broadcast
deriving DecidableEq

/-- A typed emission payload, one constructor per object shape the code
emits: a device record, the literal `null` of a missed lookup, an
`{ id }` deletion notice, an `{ message }` error body, the
`configUpdate` object `{ mode, currentPhase, remainingTime }` of the
signal PUT route, raw sparse control bodies, and the analytics rollup
object given as its named fields. -/
inductive Payload where
  | nullDevice
  | camera (c : Camera)
  | signal (s : Signal)
  | idMsg (id : String)
  | message (m : String)
  | signalConfig (mode currentPhase remainingTime : Option String)
  | cameraBody (b : CameraPutBody)
  | signalBody (b : SignalPutBody)
  | camSettings (s : Option CameraSettings)
  | analytics (fields : List (String × AValue))
deriving DecidableEq

/-- One fan-out bus emission. -/
structure Emit where
  target : Target
  event : String
  payload : Payload
deriving DecidableEq

/-- Result of a REST handler over a store of type `σ`: HTTP status,
response body, post-state of the store, and the emissions performed. -/
structure RestOut (σ : Type) where
  statusCode : Nat
  body : Payload
  store : σ
  emits : List Emit

/-- JavaScript truthiness of an optional string: `undefined` and the empty
string are falsy. -/
def jsTruthy : Option String → Bool
  | some s => !(s == "")
  | none => false

/-- JavaScript `x || d` for an optional string (`undefined` and `""` give
the default). -/
def jsOrStr (o : Option String) (d : String) : String :=
  match o with
  | some s => if s == "" then d else s
  | none => d

/-- Write an optional `$set` value over an existing optional field: a
present value replaces, an absent one is stripped from the update. -/
def setOpt {α : Type} (new old : Option α) : Option α :=
  match new with
  | some v => some v
  | none => old

/-- Arithmetic mean of a list of rationals (`$avg`). -/
def avgRat (xs : List Rat) : Rat := xs.sum / (xs.length : Rat)

/-- The 24-hour trailing window in milliseconds (`24 * 60 * 60 * 1000`). -/
def windowMs : Nat := 24 * 60 * 60 * 1000

/-- Apply the `$set` of `PUT /signals/:id` to a found signal record. -/
def applySignalPut (b : SignalPutBody) (s : Signal) : Signal :=
  { s with
    name := b.name.getD s.name
    location := b.location.getD s.location
    coordinates := setOpt b.coordinates s.coordinates
    ipAddress := setOpt b.ipAddress s.ipAddress
    status := b.status.getD s.status
    mode := b.mode.getD s.mode
    currentPhase := b.currentPhase.getD s.currentPhase
    remainingTime := b.remainingTime.getD s.remainingTime }

/-- Apply the `$set` of `PUT /cameras/:id` to a found camera record. -/
def applyCameraPut (b : CameraPutBody) (c : Camera) : Camera :=
  { c with
    name := b.name.getD c.name
    location := b.location.getD c.location
    coordinates := setOpt b.coordinates c.coordinates
    ipAddress := setOpt b.ipAddress c.ipAddress
    status := b.status.getD c.status
    settings := b.settings.getD c.settings }

/-- The `PUT /signals/:id` handler of `routes/signals.js`: update via
`findByIdAndUpdate` (404 when the id is absent), broadcast the full
post-update record to the `admin` room as `signalUpdate`, and when the
body carried a truthy `mode` or `currentPhase` also emit the narrow
`configUpdate` object to the device room `signal-<id>`. -/
def putSignal (store : List Signal) (id : String) (b : SignalPutBody) :
    RestOut (List Signal) :=
  match store.find? (fun s => s.id == id) with
  | none => ⟨404, Payload.message "Signal not found", store, []⟩
  | some s =>
    let upd := applySignalPut b s
    let store' := store.map (fun t => if t.id == id then applySignalPut b t else t)
    let cfg :=
      if jsTruthy b.mode || jsTruthy b.currentPhase then
        [⟨Target.group ("signal-" ++ upd.id), "configUpdate",
          Payload.signalConfig b.mode b.currentPhase b.remainingTime⟩]
      else []
    ⟨200, Payload.signal upd, store',
      ⟨Target.group "admin", "signalUpdate", Payload.signal upd⟩ :: cfg⟩

/-- The `PUT /cameras/:id` handler of `routes/cameras.js`: update via
`findByIdAndUpdate` (404 when absent), broadcast the full record to
`admin` as `cameraUpdate`, and unconditionally forward the raw body
`settings` to the device room `camera-<id>` as `configUpdate`. -/
def putCamera (store : List Camera) (id : String) (b : CameraPutBody) :
    RestOut (List Camera) :=
  match store.find? (fun c => c.id == id) with
  | none => ⟨404, Payload.message "Camera not found", store, []⟩
  | some c =>
    let upd := applyCameraPut b c
    let store' := store.map (fun t => if t.id == id then applyCameraPut b t else t)
    ⟨200, Payload.camera upd, store',
      [⟨Target.group "admin", "cameraUpdate", Payload.camera upd⟩,
       ⟨Target.group ("camera-" ++ upd.id), "configUpdate", Payload.camSettings b.settings⟩]⟩

/-- The `DELETE /signals/:id` handler of `routes/signals.js`:
`findByIdAndDelete`; a missing id gives 404 with no emission and no
store change; deletion broadcasts an `{ id }` notice as
`signalDeleted` to `admin`. -/
def deleteSignalRoute (store : List Signal) (id : String) :
    RestOut (List Signal) :=
  match store.find? (fun s => s.id == id) with
  | none => ⟨404, Payload.message "Signal not found", store, []⟩
  | some _ =>
    ⟨200, Payload.message "Signal deleted successfully",
      store.filter (fun s => !(s.id == id)),
      [⟨Target.group "admin", "signalDeleted", Payload.idMsg id⟩]⟩

/-- The `DELETE /cameras/:id` handler of `routes/cameras.js` (the camera
twin of `deleteSignalRoute`, emitting `cameraDeleted`). -/
def deleteCameraRoute (store : List Camera) (id : String) :
    RestOut (List Camera) :=
  match store.find? (fun c => c.id == id) with
  | none => ⟨404, Payload.message "Camera not found", store, []⟩
  | some _ =>
    ⟨200, Payload.message "Camera deleted successfully",
      store.filter (fun c => !(c.id == id)),
      [⟨Target.group "admin", "cameraDeleted", Payload.idMsg id⟩]⟩

/-- Post-state of one socket event handler: rooms this connection joined,
the three stores, and the emissions performed. -/
structure SockOut where
  joins : List String
  cams : List Camera
  sigs : List Signal
  samples : List Sample
  emits : List Emit
deriving DecidableEq

/-- Encode a possibly-missed camera lookup as an emission payload: a
`findByIdAndUpdate` on an unknown id returns `null` and the handlers
emit it as-is. -/
def encodeOptCamera : Option Camera → Payload
  | some c => Payload.camera c
  | none => Payload.nullDevice

/-- Encode a possibly-missed signal lookup as an emission payload. -/
def encodeOptSignal : Option Signal → Payload
  | some s => Payload.signal s
  | none => Payload.nullDevice

/-- The analytics rollup object as `processTrafficAnalytics` emits it: the
`$group` stage's `_id: null`, `$avg` of `trafficVolume`, `$avg` of
`averageSpeed`, and `$push` of `vehicleTypes` over the window. -/
def rollupFields (win : List Sample) : List (String × AValue) :=
  [("_id", AValue.vnull),
   ("averageTrafficVolume", AValue.vnum (avgRat (win.map (fun s => (s.trafficVolume : Rat))))),
   ("averageSpeed", AValue.vnum (avgRat (win.map Sample.averageSpeed))),
   ("vehicleTypesAggregate", AValue.vvtList (win.map Sample.vehicleTypes))]

/-- Map a pushed metrics payload to the stored analytics record
(`Analytics.create` call in `processTrafficAnalytics`, with the code's
`||` defaults). -/
def insertedSample (now : Nat) (m : Metrics) : Sample :=
  { ts := now
    trafficVolume := m.vehicleCount.getD 0
    congestionLevel := jsOrStr m.congestionLevel "Low"
    averageSpeed := m.averageSpeed.getD 0
    vehicleTypes := m.vehicleTypes.getD ⟨0, 0, 0⟩
    junctionId := m.junctionId }

/-- `processTrafficAnalytics` of `socketHandlers.js`: insert the mapped
sample, aggregate over the trailing 24-hour window, and when the
aggregation produced a group emit it to `admin` as `analyticsUpdate`. -/
def processTrafficAnalytics (now : Nat) (m : Metrics) (samples : List Sample) :
    List Sample × List Emit :=
  let samples' := samples ++ [insertedSample now m]
  let win := samples'.filter (fun s => now - windowMs ≤ s.ts)
  if win.isEmpty then (samples', [])
  else (samples', [⟨Target.group "admin", "analyticsUpdate", Payload.analytics (rollupFields win)⟩])

/-- The `deviceConnect` socket handler: reject a wrong shared secret
before any join or store access (`throw` ahead of `socket.join`); on a
valid key join the room `<type>-<id>` and then flip the matching device
record online, refresh `lastSeen`, and broadcast it to `admin`; a
database failure after the join reaches the same `catch` as the key
check. -/
def deviceConnectH (secret : String) (dbFails : Bool) (ty id apiKey : String)
    (now : Nat) (cams : List Camera) (sigs : List Signal) (samples : List Sample) :
    SockOut :=
  if !(apiKey == secret) then
    ⟨[], cams, sigs, samples,
      [⟨Target.sender, "error", Payload.message "Authentication failed"⟩]⟩
  else if dbFails then
    ⟨[ty ++ "-" ++ id], cams, sigs, samples,
      [⟨Target.sender, "error", Payload.message "Authentication failed"⟩]⟩
  else if ty == "camera" then
    let upd := fun (c : Camera) => { c with status := "online", lastSeen := some now }
    ⟨[ty ++ "-" ++ id],
      cams.map (fun c => if c.id == id then upd c else c), sigs, samples,
      [⟨Target.group "admin", "cameraUpdate",
        encodeOptCamera ((cams.find? (fun c => c.id == id)).map upd)⟩]⟩
  else if ty == "signal" then
    let upd := fun (s : Signal) => { s with status := "online", lastSeen := some now }
    ⟨[ty ++ "-" ++ id], cams,
      sigs.map (fun s => if s.id == id then upd s else s), samples,
      [⟨Target.group "admin", "signalUpdate",
        encodeOptSignal ((sigs.find? (fun s => s.id == id)).map upd)⟩]⟩
  else
    ⟨[ty ++ "-" ++ id], cams, sigs, samples, []⟩

/-- The record update applied by `deviceData` to a camera: refresh
`lastSeen` and replace `metrics` wholesale with the pushed payload. -/
def deviceDataCamUpd (now : Nat) (m : Metrics) (c : Camera) : Camera :=
  { c with lastSeen := some now, metrics := some m }

/-- The record update applied by `deviceData` to a signal: refresh
`lastSeen`, promote `currentPhase` and `remainingTime` from the payload
(stripped from the `$set` when absent), and replace `metrics`. -/
def deviceDataSigUpd (now : Nat) (m : Metrics) (s : Signal) : Signal :=
  { s with lastSeen := some now
           currentPhase := m.currentPhase.getD s.currentPhase
           remainingTime := m.remainingTime.getD s.remainingTime
           metrics := some m }

/-- The `deviceData` socket handler: update the matched record per device
type and broadcast the store's return value to `admin` (the literal
`null` when the id matched nothing); for cameras additionally fork into
`processTrafficAnalytics`; its `catch` branch only logs — a database
failure emits nothing at all. -/
def deviceDataH (dbFails : Bool) (ty id : String) (m : Metrics) (now : Nat)
    (cams : List Camera) (sigs : List Signal) (samples : List Sample) : SockOut :=
  if dbFails then ⟨[], cams, sigs, samples, []⟩
  else if ty == "camera" then
    let found := (cams.find? (fun c => c.id == id)).map (deviceDataCamUpd now m)
    let ana := processTrafficAnalytics now m samples
    ⟨[], cams.map (fun c => if c.id == id then deviceDataCamUpd now m c else c),
      sigs, ana.1,
      ⟨Target.group "admin", "cameraUpdate", encodeOptCamera found⟩ :: ana.2⟩
  else if ty == "signal" then
    let found := (sigs.find? (fun s => s.id == id)).map (deviceDataSigUpd now m)
    ⟨[], cams, sigs.map (fun s => if s.id == id then deviceDataSigUpd now m s else s),
      samples,
      [⟨Target.group "admin", "signalUpdate", encodeOptSignal found⟩]⟩
  else ⟨[], cams, sigs, samples, []⟩

/-- The `cameraControl` socket handler: `$set` the raw control body on the
target record, broadcast the store's return value to `admin`, and
forward the raw body to the device room; its `catch` emits an `error`
back to the sender only. -/
def cameraControlH (dbFails : Bool) (id : String) (b : CameraPutBody)
    (cams : List Camera) : List Camera × List Emit :=
  if dbFails then
    (cams, [⟨Target.sender, "error", Payload.message "Failed to control camera"⟩])
  else
    let found := (cams.find? (fun c => c.id == id)).map (applyCameraPut b)
    (cams.map (fun c => if c.id == id then applyCameraPut b c else c),
     [⟨Target.group "admin", "cameraUpdate", encodeOptCamera found⟩,
      ⟨Target.group ("camera-" ++ id), "configUpdate", Payload.cameraBody b⟩])

/-- The `signalControl` socket handler (twin of `cameraControlH`). -/
def signalControlH (dbFails : Bool) (id : String) (b : SignalPutBody)
    (sigs : List Signal) : List Signal × List Emit :=
  if dbFails then
    (sigs, [⟨Target.sender, "error", Payload.message "Failed to control signal"⟩])
  else
    let found := (sigs.find? (fun s => s.id == id)).map (applySignalPut b)
    (sigs.map (fun s => if s.id == id then applySignalPut b s else s),
     [⟨Target.group "admin", "signalUpdate", encodeOptSignal found⟩,
      ⟨Target.group ("signal-" ++ id), "configUpdate", Payload.signalBody b⟩])

/-- Severity score of a congestion label in the hourly-trend `$cond`
chain of `routes/dashboard.js`: `High` scores 3, `Moderate` scores 2,
anything else scores 1. -/
def congestionScore (l : String) : Rat :=
  if l == "High" then 3 else if l == "Moderate" then 2 else 1

/-- Map an averaged severity score back to a label (`routes/dashboard.js`
line building `trafficTrend`): below 1.5 `Low`, below 2.5 `Moderate`,
otherwise `High`. -/
def trendLabel (avg : Rat) : String :=
  if avg < 3/2 then "Low" else if avg < 5/2 then "Moderate" else "High"

/-- JavaScript `Math.round` on a rational: floor of the value plus one
half. -/
def ratRound (q : Rat) : Int := ⌊q + 1/2⌋

/-- The `(year, month, day, hour)` group key of a timestamp, modelled as
its epoch-hour index (the two induce the same partition of calendar
timestamps). -/
def hourKey (ts : Nat) : Nat := ts / 3600000

/-- Insert into an ascending list (`$sort` by the time key, ascending). -/
def insertAsc (x : Nat) : List Nat → List Nat
  | [] => [x]
  | y :: ys => if x ≤ y then x :: y :: ys else y :: insertAsc x ys

/-- Ascending sort of the bucket keys. -/
def sortAsc (l : List Nat) : List Nat := l.foldr insertAsc []

/-- One point of the dashboard's 24-hour `trafficTrend` array. -/
structure TrendPoint where
  time : String
  trafficVolume : Int
  congestionLevel : String
deriving DecidableEq

/-- The `GET /overview` hourly-trend computation: keep the trailing
24 hours, group by clock hour, average traffic volume and the
congestion severity scores per bucket, and render each bucket with a
rounded volume and the thresholded label. -/
def trafficTrend (now : Nat) (samples : List Sample) : List TrendPoint :=
  let win := samples.filter (fun s => now - windowMs ≤ s.ts)
  let keys := sortAsc ((win.map (fun s => hourKey s.ts)).dedup)
  keys.map (fun k =>
    let grp := win.filter (fun s => hourKey s.ts == k)
    { time := toString (k % 24) ++ ":00"
      trafficVolume := ratRound (avgRat (grp.map (fun s => (s.trafficVolume : Rat))))
      congestionLevel := trendLabel (avgRat (grp.map (fun s => congestionScore s.congestionLevel))) })

/-- The pair of device stores shared by every mutation source. -/
structure SysState where
  cams : List Camera
  sigs : List Signal
deriving DecidableEq

/-- One mutation intent, from any of the system's three update sources:
socket device events, operator REST or control mutations, and the
`index.js` background simulator ticks (with their random draws made
explicit parameters). -/
inductive Ev where
  | devConnect (ty id apiKey : String) (now : Nat)
  | devData (ty id : String) (m : Metrics) (now : Nat)
  | restPutCamera (id : String) (b : CameraPutBody)
  | restPutSignal (id : String) (b : SignalPutBody)
  | restDeleteCamera (id : String)
  | restDeleteSignal (id : String)
  | camControl (id : String) (b : CameraPutBody)
  | sigControl (id : String) (b : SignalPutBody)
  | camSimTick (pick : Nat) (changeStatus : Bool) (statusPick : Nat) (now : Nat)
  | sigSimTick (pick : Nat) (phasePick timePick congPick : Nat) (now : Nat)
deriving DecidableEq

/-- The camera simulator's per-tick record mutation (`simulateUpdates`,
camera interval): refresh `lastUpdate` and, on the one-in-ten roll,
overwrite `status` with a uniformly random draw from
`['online', 'offline', 'warning']`. -/
def camSimUpd (changeStatus : Bool) (statusPick now : Nat) (c : Camera) : Camera :=
  let c1 := { c with lastUpdate := some now }
  if changeStatus then
    { c1 with status := (["online", "offline", "warning"].get? (statusPick % 3)).getD c1.status }
  else c1

/-- The signal simulator's per-tick record mutation (`simulateUpdates`,
signal interval): random phase, a random `<n>s` remaining time with
`n` in `5..49`, random congestion level, and a fresh `lastUpdate`;
`status` is never touched. -/
def sigSimUpd (phasePick timePick congPick now : Nat) (s : Signal) : Signal :=
  let phases := ["North-South Green", "East-West Green", "All-Way Red",
                 "North-South Yellow", "East-West Yellow"]
  { s with currentPhase := (phases.get? (phasePick % 5)).getD s.currentPhase
           remainingTime := toString (timePick % 45 + 5) ++ "s"
           congestionLevel := (["Low", "Medium", "High"].get? (congPick % 3)).getD s.congestionLevel
           lastUpdate := some now }

/-- One step of the system: dispatch the mutation intent to the handler
embedded above and keep the resulting stores (store failures do not
write, so `dbFails` is `false` here). -/
def step (secret : String) (e : Ev) (st : SysState) : SysState :=
  match e with
  | Ev.devConnect ty id key now =>
    let out := deviceConnectH secret false ty id key now st.cams st.sigs []
    ⟨out.cams, out.sigs⟩
  | Ev.devData ty id m now =>
    let out := deviceDataH false ty id m now st.cams st.sigs []
    ⟨out.cams, out.sigs⟩
  | Ev.restPutCamera id b => ⟨(putCamera st.cams id b).store, st.sigs⟩
  | Ev.restPutSignal id b => ⟨st.cams, (putSignal st.sigs id b).store⟩
  | Ev.restDeleteCamera id => ⟨(deleteCameraRoute st.cams id).store, st.sigs⟩
  | Ev.restDeleteSignal id => ⟨st.cams, (deleteSignalRoute st.sigs id).store⟩
  | Ev.camControl id b => ⟨(cameraControlH false id b st.cams).1, st.sigs⟩
  | Ev.sigControl id b => ⟨st.cams, (signalControlH false id b st.sigs).1⟩
  | Ev.camSimTick pick changeStatus statusPick now =>
    match st.cams.get? (pick % st.cams.length) with
    | none => st
    | some c =>
      ⟨st.cams.map (fun x => if x.id == c.id then camSimUpd changeStatus statusPick now x else x),
       st.sigs⟩
  | Ev.sigSimTick pick phasePick timePick congPick now =>
    let online := st.sigs.filter (fun s => s.status == "online")
    match online.get? (pick % online.length) with
    | none => st
    | some s =>
      ⟨st.cams,
       st.sigs.map (fun x => if x.id == s.id then sigSimUpd phasePick timePick congPick now x else x)⟩

/-- Whether the first record with the given id in a store is online, for a
store of either device kind (`false` when the id is absent). -/
def isOnlineIn {α : Type} (key : α → String) (st : α → String) (l : List α) (id : String) : Bool :=
  match l.find? (fun c => key c == id) with
  | some c => st c == "online"
  | none => false

/-- Whether a camera record flips to online across a step. -/
def camFlips (st st' : SysState) (id : String) : Prop :=
  isOnlineIn Camera.id Camera.status st.cams id = false ∧
  isOnlineIn Camera.id Camera.status st'.cams id = true

/-- Whether a signal record flips to online across a step. -/
def sigFlips (st st' : SysState) (id : String) : Prop :=
  isOnlineIn Signal.id Signal.status st.sigs id = false ∧
  isOnlineIn Signal.id Signal.status st'.sigs id = true

/-- The paths the specification permits to flip a device online: a
device-initiated connect with the valid shared secret, or an
operator-initiated update (REST `PUT` or socket control). -/
def claimAllowed (secret : String) : Ev → Bool
  | Ev.devConnect _ _ key _ => key == secret
  | Ev.restPutCamera _ _ => true
  | Ev.restPutSignal _ _ => true
  | Ev.camControl _ _ => true
  | Ev.sigControl _ _ => true
  | _ => false

/-- The paths that can in fact flip a device online in the code: those of
`claimAllowed` plus the background camera simulator's random status
mutation. -/
def amendedAllowed (secret : String) (e : Ev) : Bool :=
  claimAllowed secret e ||
    (match e with
     | Ev.camSimTick _ _ _ _ => true
     | _ => false)

/-- A concrete offline camera record used to instantiate the theorems. -/
def demoCamera : Camera :=
  { id := "cam1", name := "Junction 1 - North", location := "Main St & 1st Ave",
    coordinates := none, ipAddress := some "192.168.1.11", model := "ESP32-CAM",
    firmware := "v2.4.1", status := "offline", lastSeen := none, lastUpdate := none,
    metrics := none, settings := ⟨"640x480", 15, false, 50, 50⟩, createdAt := 0 }

/-- A concrete scheduled, offline signal record used to instantiate the
theorems. -/
def demoSignal : Signal :=
  { id := "sig1", name := "Junction 1", location := "Main St & 1st Ave",
    coordinates := none, ipAddress := none, status := "offline", mode := "Scheduled",
    currentPhase := "North-South Green", remainingTime := "0s",
    congestionLevel := "Unknown", lastSeen := none, lastUpdate := none,
    metrics := none, settings := ⟨[], ⟨false, []⟩⟩, createdAt := 0 }

/-- A concrete telemetry payload used to instantiate the theorems. -/
def demoMetrics : Metrics :=
  { vehicleCount := some 5, congestionLevel := some "High", averageSpeed := some 30,
    vehicleTypes := some ⟨3, 1, 1⟩, junctionId := none,
    currentPhase := some "East-West Green", remainingTime := some "12s" }

/-- C1: for every REST device-update request (`PUT /signals/:id` or
`PUT /cameras/:id`) that finds its target, the full post-update record
sent in the HTTP response equals the record emitted as `signalUpdate` /
`cameraUpdate` to the `admin` group for that same request. -/
theorem restUpdateAckEqualsAdminBroadcast
    (sigs : List Signal) (cams : List Camera) (sid cid : String)
    (sb : SignalPutBody) (cb : CameraPutBody)
    (hs : (sigs.find? (fun s => s.id == sid)).isSome = true)
    (hc : (cams.find? (fun c => c.id == cid)).isSome = true) :
    (putSignal sigs sid sb).emits.head? =
      some ⟨Target.group "admin", "signalUpdate", (putSignal sigs sid sb).body⟩ ∧
    (putCamera cams cid cb).emits.head? =
      some ⟨Target.group "admin", "cameraUpdate", (putCamera cams cid cb).body⟩ := by
  constructor
  · obtain ⟨s, hfind⟩ := Option.isSome_iff_exists.mp hs
    simp [putSignal, hfind]
  · obtain ⟨c, hfind⟩ := Option.isSome_iff_exists.mp hc
    simp [putCamera, hfind]

/-- Witness for C1 at a concrete one-record store and update body. -/
theorem restUpdateAckEqualsAdminBroadcastWitness :
    ((([demoSignal].find? (fun s => s.id == "sig1")).isSome = true) ∧
     (([demoCamera].find? (fun c => c.id == "cam1")).isSome = true)) ∧
    ((putSignal [demoSignal] "sig1" ⟨none, none, none, none, none, some "Manual", none, none⟩).emits.head? =
      some ⟨Target.group "admin", "signalUpdate",
        (putSignal [demoSignal] "sig1" ⟨none, none, none, none, none, some "Manual", none, none⟩).body⟩ ∧
     (putCamera [demoCamera] "cam1" ⟨none, none, none, none, some "online", none⟩).emits.head? =
      some ⟨Target.group "admin", "cameraUpdate",
        (putCamera [demoCamera] "cam1" ⟨none, none, none, none, some "online", none⟩).body⟩) :=
  ⟨⟨by decide, by decide⟩,
   restUpdateAckEqualsAdminBroadcast [demoSignal] [demoCamera] "sig1" "cam1"
     ⟨none, none, none, none, none, some "Manual", none, none⟩
     ⟨none, none, none, none, some "online", none⟩ (by decide) (by decide)⟩

/-- C2: a `deviceConnect` whose `apiKey` differs from the process-wide
device shared secret joins no group, changes no store (in particular no
record's status becomes online), and only sends an `error` back. -/
theorem deviceConnectWrongKeyNoEffect (secret : String) (dbF : Bool)
    (ty id apiKey : String) (now : Nat)
    (cams : List Camera) (sigs : List Signal) (samples : List Sample)
    (h : apiKey ≠ secret) :
    (deviceConnectH secret dbF ty id apiKey now cams sigs samples).joins = [] ∧
    (deviceConnectH secret dbF ty id apiKey now cams sigs samples).cams = cams ∧
    (deviceConnectH secret dbF ty id apiKey now cams sigs samples).sigs = sigs ∧
    (deviceConnectH secret dbF ty id apiKey now cams sigs samples).samples = samples ∧
    (∀ did, isOnlineIn Camera.id Camera.status
        (deviceConnectH secret dbF ty id apiKey now cams sigs samples).cams did =
      isOnlineIn Camera.id Camera.status cams did) ∧
    (∀ did, isOnlineIn Signal.id Signal.status
        (deviceConnectH secret dbF ty id apiKey now cams sigs samples).sigs did =
      isOnlineIn Signal.id Signal.status sigs did) := by
  have hb : (apiKey == secret) = false := by
    simp only [beq_eq_false_iff_ne, ne_eq]
    exact h
  simp [deviceConnectH, hb]

/-- Witness for C2 at a concrete wrong-key connect against one offline
camera and one offline signal. -/
theorem deviceConnectWrongKeyNoEffectWitness :
    ("bad" ≠ "secret") ∧
    ((deviceConnectH "secret" false "camera" "cam1" "bad" 7 [demoCamera] [demoSignal] []).joins = [] ∧
     (deviceConnectH "secret" false "camera" "cam1" "bad" 7 [demoCamera] [demoSignal] []).cams = [demoCamera] ∧
     (deviceConnectH "secret" false "camera" "cam1" "bad" 7 [demoCamera] [demoSignal] []).sigs = [demoSignal] ∧
     (deviceConnectH "secret" false "camera" "cam1" "bad" 7 [demoCamera] [demoSignal] []).samples = [] ∧
     (∀ did, isOnlineIn Camera.id Camera.status
         (deviceConnectH "secret" false "camera" "cam1" "bad" 7 [demoCamera] [demoSignal] []).cams did =
       isOnlineIn Camera.id Camera.status [demoCamera] did) ∧
     (∀ did, isOnlineIn Signal.id Signal.status
         (deviceConnectH "secret" false "camera" "cam1" "bad" 7 [demoCamera] [demoSignal] []).sigs did =
       isOnlineIn Signal.id Signal.status [demoSignal] did)) :=
  ⟨by decide,
   deviceConnectWrongKeyNoEffect "secret" false "camera" "cam1" "bad" 7
     [demoCamera] [demoSignal] [] (by decide)⟩

/-- C8: a `DELETE` whose target id is absent yields 404, publishes
nothing to any group, and leaves the store unchanged (both the signal
and the camera route). -/
theorem deleteMissingIdNotFoundNoBroadcast
    (sigs : List Signal) (cams : List Camera) (sid cid : String)
    (hs : sigs.find? (fun s => s.id == sid) = none)
    (hc : cams.find? (fun c => c.id == cid) = none) :
    ((deleteSignalRoute sigs sid).statusCode = 404 ∧
     (deleteSignalRoute sigs sid).emits = [] ∧
     (deleteSignalRoute sigs sid).store = sigs) ∧
    ((deleteCameraRoute cams cid).statusCode = 404 ∧
     (deleteCameraRoute cams cid).emits = [] ∧
     (deleteCameraRoute cams cid).store = cams) := by
  refine ⟨?_, ?_⟩
  · simp [deleteSignalRoute, hs]
  · simp [deleteCameraRoute, hc]

/-- Witness for C8: deleting an id that is not in a one-record store. -/
theorem deleteMissingIdNotFoundNoBroadcastWitness :
    (([demoSignal].find? (fun s => s.id == "ghost") = none) ∧
     ([demoCamera].find? (fun c => c.id == "ghost") = none)) ∧
    (((deleteSignalRoute [demoSignal] "ghost").statusCode = 404 ∧
      (deleteSignalRoute [demoSignal] "ghost").emits = [] ∧
      (deleteSignalRoute [demoSignal] "ghost").store = [demoSignal]) ∧
     ((deleteCameraRoute [demoCamera] "ghost").statusCode = 404 ∧
      (deleteCameraRoute [demoCamera] "ghost").emits = [] ∧
      (deleteCameraRoute [demoCamera] "ghost").store = [demoCamera])) :=
  ⟨⟨by decide, by decide⟩,
   deleteMissingIdNotFoundNoBroadcast [demoSignal] [demoCamera] "ghost" "ghost"
     (by decide) (by decide)⟩

/-- A key-preserving map commutes with a find-by-key lookup. -/
theorem find?_key_map {α : Type} (key : α → String) (id : String) (f : α → α)
    (hk : ∀ c, key (f c) = key c) (l : List α) :
    (l.map f).find? (fun x => key x == id) = (l.find? (fun x => key x == id)).map f := by
  induction l with
  | nil => rfl
  | cons hd tl ih =>
    cases h : (key hd == id) with
    | true => simp [List.find?_cons, hk, h]
    | false => simp [List.find?_cons, hk, h, ih]

/-- Updating the record matching an id through a key-preserving update
leaves the store's find-by-id returning the updated record. -/
theorem find?_upd_self {α : Type} (key : α → String) (id : String) (g : α → α)
    (hk : ∀ c, key (g c) = key c) (l : List α) (s : α)
    (hfind : l.find? (fun x => key x == id) = some s) :
    (l.map (fun c => if key c == id then g c else c)).find? (fun x => key x == id) =
      some (g s) := by
  have hk' : ∀ c, key (if key c == id then g c else c) = key c := by
    intro c
    by_cases h : (key c == id) = true <;> simp [h, hk]
  rw [find?_key_map key id _ hk', hfind]
  have hs := List.find?_some hfind
  simp only at hs
  have hs' : key s = id := by simpa using hs
  simp [hs']

/-- The analytics window always retains the sample just inserted, so it is
never empty. -/
theorem ptaWindowNonempty (now : Nat) (m : Metrics) (samples : List Sample) :
    ((samples ++ [insertedSample now m]).filter
      (fun s => now - windowMs ≤ s.ts)).isEmpty = false := by
  have hmem : insertedSample now m ∈
      (samples ++ [insertedSample now m]).filter (fun s => now - windowMs ≤ s.ts) := by
    refine List.mem_filter.mpr ⟨by simp, ?_⟩
    show decide (now - windowMs ≤ (insertedSample now m).ts) = true
    rw [show (insertedSample now m).ts = now from rfl]
    exact decide_eq_true (Nat.sub_le now windowMs)
  cases hfe : ((samples ++ [insertedSample now m]).filter
      (fun s => now - windowMs ≤ s.ts)).isEmpty
  · rfl
  · rw [List.isEmpty_iff] at hfe
    rw [hfe] at hmem
    exact absurd hmem (List.not_mem_nil _)

/-- Closed form of `processTrafficAnalytics`: it appends the mapped sample
and emits exactly one `analyticsUpdate` to `admin` carrying the rollup
of the trailing 24-hour window. -/
theorem processTrafficAnalytics_eq (now : Nat) (m : Metrics) (samples : List Sample) :
    processTrafficAnalytics now m samples =
      (samples ++ [insertedSample now m],
       [⟨Target.group "admin", "analyticsUpdate",
         Payload.analytics (rollupFields ((samples ++ [insertedSample now m]).filter
           (fun s => now - windowMs ≤ s.ts)))⟩]) := by
  simp only [processTrafficAnalytics]
  rw [ptaWindowNonempty now m samples]
  simp

/-- C9: a `PUT /signals/:id` that finds its target and carries a truthy
`mode` or `currentPhase` persists those fields and, besides the admin
broadcast, publishes a `configUpdate` carrying exactly the three fields
`mode`, `currentPhase`, `remainingTime` to the room `signal-<id>`. -/
theorem putSignalControlConfigUpdate (sigs : List Signal) (id : String)
    (b : SignalPutBody) (s : Signal)
    (hfind : sigs.find? (fun x => x.id == id) = some s)
    (hcr : jsTruthy b.mode = true ∨ jsTruthy b.currentPhase = true) :
    (putSignal sigs id b).emits =
      [⟨Target.group "admin", "signalUpdate", Payload.signal (applySignalPut b s)⟩,
       ⟨Target.group ("signal-" ++ (applySignalPut b s).id), "configUpdate",
        Payload.signalConfig b.mode b.currentPhase b.remainingTime⟩] ∧
    (putSignal sigs id b).store.find? (fun x => x.id == id) =
      some (applySignalPut b s) ∧
    (applySignalPut b s).mode = b.mode.getD s.mode ∧
    (applySignalPut b s).currentPhase = b.currentPhase.getD s.currentPhase := by
  have hguard : (jsTruthy b.mode || jsTruthy b.currentPhase) = true := by
    rcases hcr with h | h <;> simp [h]
  refine ⟨?_, ?_, rfl, rfl⟩
  · simp [putSignal, hfind, hguard]
  · simp only [putSignal, hfind]
    exact find?_upd_self Signal.id id (applySignalPut b) (fun c => rfl) sigs s hfind

/-- Witness for C9, the spec's scenario: a Scheduled signal updated with
mode Manual and phase All-Way Red. -/
theorem putSignalControlConfigUpdateWitness :
    (([demoSignal].find? (fun x => x.id == "sig1") = some demoSignal) ∧
     (jsTruthy (some "Manual") = true ∨
      jsTruthy (some "All-Way Red") = true)) ∧
    ((putSignal [demoSignal] "sig1"
        ⟨none, none, none, none, none, some "Manual", some "All-Way Red", none⟩).emits =
      [⟨Target.group "admin", "signalUpdate",
        Payload.signal (applySignalPut
          ⟨none, none, none, none, none, some "Manual", some "All-Way Red", none⟩ demoSignal)⟩,
       ⟨Target.group ("signal-" ++ (applySignalPut
          ⟨none, none, none, none, none, some "Manual", some "All-Way Red", none⟩ demoSignal).id),
        "configUpdate",
        Payload.signalConfig (some "Manual") (some "All-Way Red") none⟩] ∧
     (putSignal [demoSignal] "sig1"
        ⟨none, none, none, none, none, some "Manual", some "All-Way Red", none⟩).store.find?
          (fun x => x.id == "sig1") =
      some (applySignalPut
        ⟨none, none, none, none, none, some "Manual", some "All-Way Red", none⟩ demoSignal) ∧
     (applySignalPut
        ⟨none, none, none, none, none, some "Manual", some "All-Way Red", none⟩ demoSignal).mode =
      (some "Manual").getD demoSignal.mode ∧
     (applySignalPut
        ⟨none, none, none, none, none, some "Manual", some "All-Way Red", none⟩ demoSignal).currentPhase =
      (some "All-Way Red").getD demoSignal.currentPhase) :=
  ⟨⟨by decide, Or.inl (by decide)⟩,
   putSignalControlConfigUpdate [demoSignal] "sig1"
     ⟨none, none, none, none, none, some "Manual", some "All-Way Red", none⟩ demoSignal
     (by decide) (Or.inl (by decide))⟩

/-- C5: a `deviceData` push that matches a device record refreshes its
`lastSeen`, replaces its `metrics` wholesale with the pushed payload, for
signals also promotes `currentPhase` and `remainingTime` from the
payload, and publishes the updated record to the `admin` group. -/
theorem deviceDataUpdateAndBroadcast (id : String) (m : Metrics) (now : Nat)
    (cams : List Camera) (sigs : List Signal) (samples : List Sample)
    (c : Camera) (s : Signal)
    (hc : cams.find? (fun x => x.id == id) = some c)
    (hs : sigs.find? (fun x => x.id == id) = some s) :
    ((deviceDataH false "camera" id m now cams sigs samples).emits.head? =
       some ⟨Target.group "admin", "cameraUpdate", Payload.camera (deviceDataCamUpd now m c)⟩ ∧
     (deviceDataH false "camera" id m now cams sigs samples).cams.find? (fun x => x.id == id) =
       some (deviceDataCamUpd now m c) ∧
     (deviceDataCamUpd now m c).lastSeen = some now ∧
     (deviceDataCamUpd now m c).metrics = some m) ∧
    ((deviceDataH false "signal" id m now cams sigs samples).emits =
       [⟨Target.group "admin", "signalUpdate", Payload.signal (deviceDataSigUpd now m s)⟩] ∧
     (deviceDataH false "signal" id m now cams sigs samples).sigs.find? (fun x => x.id == id) =
       some (deviceDataSigUpd now m s) ∧
     (deviceDataSigUpd now m s).lastSeen = some now ∧
     (deviceDataSigUpd now m s).metrics = some m ∧
     (deviceDataSigUpd now m s).currentPhase = m.currentPhase.getD s.currentPhase ∧
     (deviceDataSigUpd now m s).remainingTime = m.remainingTime.getD s.remainingTime) := by
  refine ⟨⟨?_, ?_, rfl, rfl⟩, ⟨?_, ?_, rfl, rfl, rfl, rfl⟩⟩
  · simp [deviceDataH, hc, encodeOptCamera]
  · simp only [deviceDataH, Bool.false_eq_true, if_false, beq_self_eq_true, if_true]
    exact find?_upd_self Camera.id id (deviceDataCamUpd now m) (fun x => rfl) cams c hc
  · simp [deviceDataH, hs, encodeOptSignal]
  · simp only [deviceDataH, Bool.false_eq_true, if_false]
    rw [if_neg (by decide), if_pos (by decide)]
    exact find?_upd_self Signal.id id (deviceDataSigUpd now m) (fun x => rfl) sigs s hs

/-- Witness for C5 at a one-camera, one-signal store sharing the id
`dev1`. -/
theorem deviceDataUpdateAndBroadcastWitness :
    (([{ demoCamera with id := "dev1" }].find? (fun x => x.id == "dev1") =
        some { demoCamera with id := "dev1" }) ∧
     ([{ demoSignal with id := "dev1" }].find? (fun x => x.id == "dev1") =
        some { demoSignal with id := "dev1" })) ∧
    (((deviceDataH false "camera" "dev1" demoMetrics 9
          [{ demoCamera with id := "dev1" }] [{ demoSignal with id := "dev1" }] []).emits.head? =
       some ⟨Target.group "admin", "cameraUpdate",
         Payload.camera (deviceDataCamUpd 9 demoMetrics { demoCamera with id := "dev1" })⟩ ∧
     (deviceDataH false "camera" "dev1" demoMetrics 9
          [{ demoCamera with id := "dev1" }] [{ demoSignal with id := "dev1" }] []).cams.find?
            (fun x => x.id == "dev1") =
       some (deviceDataCamUpd 9 demoMetrics { demoCamera with id := "dev1" }) ∧
     (deviceDataCamUpd 9 demoMetrics { demoCamera with id := "dev1" }).lastSeen = some 9 ∧
     (deviceDataCamUpd 9 demoMetrics { demoCamera with id := "dev1" }).metrics = some demoMetrics) ∧
    ((deviceDataH false "signal" "dev1" demoMetrics 9
          [{ demoCamera with id := "dev1" }] [{ demoSignal with id := "dev1" }] []).emits =
       [⟨Target.group "admin", "signalUpdate",
         Payload.signal (deviceDataSigUpd 9 demoMetrics { demoSignal with id := "dev1" })⟩] ∧
     (deviceDataH false "signal" "dev1" demoMetrics 9
          [{ demoCamera with id := "dev1" }] [{ demoSignal with id := "dev1" }] []).sigs.find?
            (fun x => x.id == "dev1") =
       some (deviceDataSigUpd 9 demoMetrics { demoSignal with id := "dev1" }) ∧
     (deviceDataSigUpd 9 demoMetrics { demoSignal with id := "dev1" }).lastSeen = some 9 ∧
     (deviceDataSigUpd 9 demoMetrics { demoSignal with id := "dev1" }).metrics = some demoMetrics ∧
     (deviceDataSigUpd 9 demoMetrics { demoSignal with id := "dev1" }).currentPhase =
       demoMetrics.currentPhase.getD { demoSignal with id := "dev1" }.currentPhase ∧
     (deviceDataSigUpd 9 demoMetrics { demoSignal with id := "dev1" }).remainingTime =
       demoMetrics.remainingTime.getD { demoSignal with id := "dev1" }.remainingTime)) :=
  ⟨⟨by decide, by decide⟩,
   deviceDataUpdateAndBroadcast "dev1" demoMetrics 9
     [{ demoCamera with id := "dev1" }] [{ demoSignal with id := "dev1" }] []
     { demoCamera with id := "dev1" } { demoSignal with id := "dev1" }
     (by decide) (by decide)⟩

/-- C10: a `deviceData` push whose id matches no record neither signals
NotFound nor emits an error to the sender; it still broadcasts a
`cameraUpdate` / `signalUpdate` to `admin` whose payload is the null
record the lookup returned. -/
theorem deviceDataUnknownIdNullBroadcast (id : String) (m : Metrics) (now : Nat)
    (cams : List Camera) (sigs : List Signal) (samples : List Sample)
    (hc : cams.find? (fun x => x.id == id) = none)
    (hs : sigs.find? (fun x => x.id == id) = none) :
    ((deviceDataH false "camera" id m now cams sigs samples).emits.head? =
       some ⟨Target.group "admin", "cameraUpdate", Payload.nullDevice⟩ ∧
     ∀ e ∈ (deviceDataH false "camera" id m now cams sigs samples).emits,
       e.target = Target.group "admin") ∧
    ((deviceDataH false "signal" id m now cams sigs samples).emits =
       [⟨Target.group "admin", "signalUpdate", Payload.nullDevice⟩]) := by
  refine ⟨⟨?_, ?_⟩, ?_⟩
  · simp [deviceDataH, hc, encodeOptCamera]
  · intro e he
    simp only [deviceDataH, Bool.false_eq_true, if_false, beq_self_eq_true, if_true,
      processTrafficAnalytics_eq, hc, List.mem_cons, List.not_mem_nil, or_false] at he
    rcases he with he | he <;> rw [he]
  · simp [deviceDataH, hs, encodeOptSignal]

/-- Witness for C10: a push for an id absent from both stores. -/
theorem deviceDataUnknownIdNullBroadcastWitness :
    (([demoCamera].find? (fun x => x.id == "ghost") = none) ∧
     ([demoSignal].find? (fun x => x.id == "ghost") = none)) ∧
    (((deviceDataH false "camera" "ghost" demoMetrics 9 [demoCamera] [demoSignal] []).emits.head? =
       some ⟨Target.group "admin", "cameraUpdate", Payload.nullDevice⟩ ∧
     ∀ e ∈ (deviceDataH false "camera" "ghost" demoMetrics 9 [demoCamera] [demoSignal] []).emits,
       e.target = Target.group "admin") ∧
    ((deviceDataH false "signal" "ghost" demoMetrics 9 [demoCamera] [demoSignal] []).emits =
       [⟨Target.group "admin", "signalUpdate", Payload.nullDevice⟩])) :=
  ⟨⟨by decide, by decide⟩,
   deviceDataUnknownIdNullBroadcast "ghost" demoMetrics 9 [demoCamera] [demoSignal] []
     (by decide) (by decide)⟩

/-- Counterexample to C6: a failing `deviceData` mutation emits no events
at all — in particular no `error` event carrying a message reaches the
originating connection, contrary to the claim that every failing
socket-originated mutation reports back to its sender. -/
theorem deviceDataFailureEmitsNothing :
    (deviceDataH true "camera" "cam1" demoMetrics 9 [demoCamera] [demoSignal] []).emits = [] ∧
    ((deviceDataH true "camera" "cam1" demoMetrics 9 [demoCamera] [demoSignal] []).emits.any
      (fun e => e.target == Target.sender && e.event == "error")) = false := by
  exact ⟨rfl, rfl⟩

/-- C6 amended: failing `cameraControl`, `signalControl` and
`deviceConnect` mutations emit exactly one `error` event back to the
originating connection and nothing to any other connection, and leave
the stores unchanged; a failing `deviceData` emits nothing at all (it
is only logged); in every case the failure propagates no further. -/
theorem socketFailureIsolation (secret ty id apiKey : String) (dbF : Bool) (now : Nat)
    (cb : CameraPutBody) (sb : SignalPutBody) (m : Metrics)
    (cams : List Camera) (sigs : List Signal) (samples : List Sample)
    (hkey : apiKey ≠ secret) :
    ((cameraControlH true id cb cams).2 =
       [⟨Target.sender, "error", Payload.message "Failed to control camera"⟩] ∧
     (cameraControlH true id cb cams).1 = cams) ∧
    ((signalControlH true id sb sigs).2 =
       [⟨Target.sender, "error", Payload.message "Failed to control signal"⟩] ∧
     (signalControlH true id sb sigs).1 = sigs) ∧
    (deviceConnectH secret dbF ty id apiKey now cams sigs samples).emits =
      [⟨Target.sender, "error", Payload.message "Authentication failed"⟩] ∧
    (deviceConnectH secret true ty id secret now cams sigs samples).emits =
      [⟨Target.sender, "error", Payload.message "Authentication failed"⟩] ∧
    ((deviceDataH true ty id m now cams sigs samples).emits = [] ∧
     (deviceDataH true ty id m now cams sigs samples).cams = cams ∧
     (deviceDataH true ty id m now cams sigs samples).sigs = sigs ∧
     (deviceDataH true ty id m now cams sigs samples).samples = samples) := by
  have hb : (apiKey == secret) = false := by
    simp only [beq_eq_false_iff_ne, ne_eq]
    exact hkey
  refine ⟨⟨rfl, rfl⟩, ⟨rfl, rfl⟩, ?_, ?_, rfl, rfl, rfl, rfl⟩
  · simp [deviceConnectH, hb]
  · simp [deviceConnectH]

/-- Witness for C6 amended, at concrete failing mutations. -/
theorem socketFailureIsolationWitness :
    ("bad" ≠ "k") ∧
    (((cameraControlH true "cam1" ⟨none, none, none, none, some "online", none⟩ [demoCamera]).2 =
       [⟨Target.sender, "error", Payload.message "Failed to control camera"⟩] ∧
     (cameraControlH true "cam1" ⟨none, none, none, none, some "online", none⟩ [demoCamera]).1 =
       [demoCamera]) ∧
    (((signalControlH true "sig1" ⟨none, none, none, none, none, some "Manual", none, none⟩ [demoSignal]).2 =
       [⟨Target.sender, "error", Payload.message "Failed to control signal"⟩]) ∧
     (signalControlH true "sig1" ⟨none, none, none, none, none, some "Manual", none, none⟩ [demoSignal]).1 =
       [demoSignal]) ∧
    (deviceConnectH "k" false "camera" "cam1" "bad" 9 [demoCamera] [demoSignal] []).emits =
      [⟨Target.sender, "error", Payload.message "Authentication failed"⟩] ∧
    (deviceConnectH "k" true "camera" "cam1" "k" 9 [demoCamera] [demoSignal] []).emits =
      [⟨Target.sender, "error", Payload.message "Authentication failed"⟩] ∧
    ((deviceDataH true "camera" "cam1" demoMetrics 9 [demoCamera] [demoSignal] []).emits = [] ∧
     (deviceDataH true "camera" "cam1" demoMetrics 9 [demoCamera] [demoSignal] []).cams = [demoCamera] ∧
     (deviceDataH true "camera" "cam1" demoMetrics 9 [demoCamera] [demoSignal] []).sigs = [demoSignal] ∧
     (deviceDataH true "camera" "cam1" demoMetrics 9 [demoCamera] [demoSignal] []).samples = [])) :=
  ⟨by decide,
   socketFailureIsolation "k" "camera" "cam1" "bad" false 9
     ⟨none, none, none, none, some "online", none⟩
     ⟨none, none, none, none, none, some "Manual", none, none⟩
     demoMetrics [demoCamera] [demoSignal] [] (by decide)⟩

/-- Whether an emission payload is a rollup object one of whose fields is
the given list of congestion labels (the shape the claim expects the
rollup to carry). -/
def carriesLabelList (p : Payload) (xs : List String) : Bool :=
  match p with
  | Payload.analytics fs => fs.any (fun f => f.2 == AValue.vstrList xs)
  | _ => false

/-- Counterexample to C4: the rollup emitted for a concrete telemetry
sample carries no field equal to the raw list of congestion labels of
the window (here `["High"]`), although an `analyticsUpdate` emission did
occur. -/
theorem analyticsRollupOmitsLabelList :
    ((processTrafficAnalytics 9 demoMetrics []).2 ≠ []) ∧
    ((processTrafficAnalytics 9 demoMetrics []).2.any
      (fun e => carriesLabelList e.payload
        ((((([] : List Sample) ++ [insertedSample 9 demoMetrics]).filter
          (fun s => 9 - windowMs ≤ s.ts)).map Sample.congestionLevel)))) = false := by
  refine ⟨?_, by decide⟩
  rw [processTrafficAnalytics_eq]
  decide

/-- C4 amended: each processed telemetry sample is appended to the store
through the code's field mapping (with its defaults), and the rollup
emitted to `admin` is computed over exactly the samples of the trailing
24-hour window and carries the mean traffic volume, the mean
average-speed and the raw list of vehicle-type breakdowns of those
samples — but no list of congestion-level labels. -/
theorem analyticsSampleAndRollup (now : Nat) (m : Metrics) (samples : List Sample) :
    (processTrafficAnalytics now m samples).1 = samples ++ [insertedSample now m] ∧
    (processTrafficAnalytics now m samples).2 =
      [⟨Target.group "admin", "analyticsUpdate", Payload.analytics (rollupFields
        ((samples ++ [insertedSample now m]).filter (fun s => now - windowMs ≤ s.ts)))⟩] ∧
    rollupFields ((samples ++ [insertedSample now m]).filter (fun s => now - windowMs ≤ s.ts)) =
      [("_id", AValue.vnull),
       ("averageTrafficVolume", AValue.vnum (avgRat (((samples ++ [insertedSample now m]).filter
          (fun s => now - windowMs ≤ s.ts)).map (fun s => (s.trafficVolume : Rat))))),
       ("averageSpeed", AValue.vnum (avgRat (((samples ++ [insertedSample now m]).filter
          (fun s => now - windowMs ≤ s.ts)).map Sample.averageSpeed))),
       ("vehicleTypesAggregate", AValue.vvtList (((samples ++ [insertedSample now m]).filter
          (fun s => now - windowMs ≤ s.ts)).map Sample.vehicleTypes))] ∧
    ∀ f ∈ rollupFields ((samples ++ [insertedSample now m]).filter
        (fun s => now - windowMs ≤ s.ts)),
      ∀ xs : List String, f.2 ≠ AValue.vstrList xs := by
  refine ⟨?_, ?_, rfl, ?_⟩
  · rw [processTrafficAnalytics_eq]
  · rw [processTrafficAnalytics_eq]
  · intro f hf xs
    simp only [rollupFields, List.mem_cons, List.not_mem_nil, or_false] at hf
    rcases hf with hf | hf | hf | hf <;> rw [hf] <;> simp

/-- C3: the hourly trend scores congestion labels Low, Moderate, High as
1, 2, 3, thresholds the per-hour averaged score at 1.5 and 2.5 for the
labels Low, Moderate, High, and three window samples in one clock hour
labelled Low, Moderate, High average to exactly 2 and render as a
single `Moderate` trend point. -/
theorem hourlyTrendScoringAndThresholds (now : Nat) (s1 s2 s3 : Sample)
    (h1 : now - windowMs ≤ s1.ts) (h2 : now - windowMs ≤ s2.ts)
    (h3 : now - windowMs ≤ s3.ts)
    (hk2 : hourKey s2.ts = hourKey s1.ts) (hk3 : hourKey s3.ts = hourKey s1.ts)
    (hl1 : s1.congestionLevel = "Low") (hl2 : s2.congestionLevel = "Moderate")
    (hl3 : s3.congestionLevel = "High") :
    (congestionScore "Low" = 1 ∧ congestionScore "Moderate" = 2 ∧
     congestionScore "High" = 3) ∧
    (∀ q : Rat, (q < 3/2 → trendLabel q = "Low") ∧
       (3/2 ≤ q → q < 5/2 → trendLabel q = "Moderate") ∧
       (5/2 ≤ q → trendLabel q = "High")) ∧
    avgRat [congestionScore s1.congestionLevel, congestionScore s2.congestionLevel,
      congestionScore s3.congestionLevel] = 2 ∧
    (trafficTrend now [s1, s2, s3]).map (fun p => p.congestionLevel) = ["Moderate"] := by
  have e1 : (decide (now - windowMs ≤ s1.ts)) = true := decide_eq_true h1
  have e2 : (decide (now - windowMs ≤ s2.ts)) = true := decide_eq_true h2
  have e3 : (decide (now - windowMs ≤ s3.ts)) = true := decide_eq_true h3
  refine ⟨⟨rfl, rfl, rfl⟩, ?_, ?_, ?_⟩
  · intro q
    refine ⟨fun hq => ?_, fun hq1 hq2 => ?_, fun hq => ?_⟩
    · unfold trendLabel
      rw [if_pos hq]
    · unfold trendLabel
      rw [if_neg (by exact not_lt.mpr hq1), if_pos hq2]
    · unfold trendLabel
      rw [if_neg (by exact not_lt.mpr (le_trans (by norm_num) hq)),
          if_neg (by exact not_lt.mpr hq)]
  · rw [hl1, hl2, hl3]
    simp [congestionScore, avgRat, List.sum_cons, List.sum_nil]
    norm_num
  · unfold trafficTrend
    simp only [List.filter_cons, List.filter_nil, e1, e2, e3, if_true, List.map_cons,
      List.map_nil, hk2, hk3]
    have hd : List.dedup [hourKey s1.ts, hourKey s1.ts, hourKey s1.ts] = [hourKey s1.ts] := by
      rw [List.dedup_cons_of_mem (by simp), List.dedup_cons_of_mem (by simp)]
      simp
    rw [hd]
    simp only [sortAsc, List.foldr, insertAsc]
    simp only [List.map_cons, List.map_nil, List.filter_cons, List.filter_nil, hk2, hk3,
      beq_self_eq_true, if_true]
    rw [hl1, hl2, hl3]
    simp [trendLabel, avgRat, congestionScore]
    norm_num

/-- A window sample labelled Low, in clock hour 1. -/
def trendS1 : Sample := ⟨3600000, 10, "Low", 40, ⟨2, 1, 0⟩, none⟩

/-- A window sample labelled Moderate, in clock hour 1. -/
def trendS2 : Sample := ⟨3700000, 20, "Moderate", 35, ⟨1, 1, 1⟩, none⟩

/-- A window sample labelled High, in clock hour 1. -/
def trendS3 : Sample := ⟨3800000, 30, "High", 20, ⟨3, 0, 1⟩, none⟩

/-- Witness for C3: three concrete samples in the same clock hour with
labels Low, Moderate, High. -/
theorem hourlyTrendScoringAndThresholdsWitness :
    ((7200000 - windowMs ≤ trendS1.ts) ∧ (7200000 - windowMs ≤ trendS2.ts) ∧
     (7200000 - windowMs ≤ trendS3.ts) ∧ hourKey trendS2.ts = hourKey trendS1.ts ∧
     hourKey trendS3.ts = hourKey trendS1.ts ∧ trendS1.congestionLevel = "Low" ∧
     trendS2.congestionLevel = "Moderate" ∧ trendS3.congestionLevel = "High") ∧
    ((congestionScore "Low" = 1 ∧ congestionScore "Moderate" = 2 ∧
      congestionScore "High" = 3) ∧
     (∀ q : Rat, (q < 3/2 → trendLabel q = "Low") ∧
        (3/2 ≤ q → q < 5/2 → trendLabel q = "Moderate") ∧
        (5/2 ≤ q → trendLabel q = "High")) ∧
     avgRat [congestionScore trendS1.congestionLevel,
       congestionScore trendS2.congestionLevel,
       congestionScore trendS3.congestionLevel] = 2 ∧
     (trafficTrend 7200000 [trendS1, trendS2, trendS3]).map
       (fun p => p.congestionLevel) = ["Moderate"]) :=
  ⟨⟨by decide, by decide, by decide, by decide, by decide, rfl, rfl, rfl⟩,
   hourlyTrendScoringAndThresholds 7200000 trendS1 trendS2 trendS3
     (by decide) (by decide) (by decide) (by decide) (by decide) rfl rfl rfl⟩

/-- A key-preserving, status-preserving map over a store leaves every
online flag unchanged. -/
theorem isOnlineIn_map {α : Type} (key stf : α → String) (id : String) (f : α → α)
    (hk : ∀ c, key (f c) = key c) (hs : ∀ c, stf (f c) = stf c) (l : List α) :
    isOnlineIn key stf (l.map f) id = isOnlineIn key stf l id := by
  unfold isOnlineIn
  rw [find?_key_map key id f hk]
  cases l.find? (fun c => key c == id) with
  | none => rfl
  | some c => simp [hs]

/-- Filtering with a predicate that holds on every id match leaves the
lookup result untouched. -/
theorem find?_filter_of_imp {α : Type} (p q : α → Bool) (l : List α)
    (h : ∀ x, p x = true → q x = true) :
    (l.filter q).find? p = l.find? p := by
  induction l with
  | nil => rfl
  | cons hd tl ih =>
    cases hq : q hd with
    | true =>
      cases hp : p hd with
      | true => simp [List.filter_cons, hq, List.find?_cons, hp, ih]
      | false => simp [List.filter_cons, hq, List.find?_cons, hp, ih]
    | false =>
      have hp : p hd = false := by
        cases hph : p hd with
        | true => rw [h hd hph] at hq; exact absurd hq (by simp)
        | false => rfl
      simp [List.filter_cons, hq, List.find?_cons, hp, ih]

/-- Removing every record with a given id makes its online flag false. -/
theorem isOnlineIn_filter_removed {α : Type} (key stf : α → String) (id : String)
    (l : List α) :
    isOnlineIn key stf (l.filter (fun c => !(key c == id))) id = false := by
  unfold isOnlineIn
  have hnone : (l.filter (fun c => !(key c == id))).find? (fun c => key c == id) = none := by
    rw [List.find?_eq_none]
    intro x hx
    have hmem := List.mem_filter.mp hx
    simp only [Bool.not_eq_true'] at hmem
    simp [hmem.2]
  rw [hnone]

/-- Deleting records of an unrelated id does not change a record's online
flag. -/
theorem isOnlineIn_filter_other {α : Type} (key stf : α → String) (id d : String)
    (hne : id ≠ d) (l : List α) :
    isOnlineIn key stf (l.filter (fun c => !(key c == d))) id =
      isOnlineIn key stf l id := by
  unfold isOnlineIn
  rw [find?_filter_of_imp]
  intro x hx
  have hxid : key x = id := by simpa using hx
  simp [hxid, hne]

/-- A conditional camera update that touches neither `id` nor `status`
leaves every camera online flag unchanged. -/
theorem camOnline_upd_invariant (did : String) (g : Camera → Camera)
    (hk : ∀ c, (g c).id = c.id) (hs : ∀ c, (g c).status = c.status)
    (l : List Camera) (id : String) :
    isOnlineIn Camera.id Camera.status
        (l.map (fun c => if c.id == did then g c else c)) id =
      isOnlineIn Camera.id Camera.status l id :=
  isOnlineIn_map _ _ id _
    (fun c => by by_cases h : (c.id == did) = true <;> simp [h, hk])
    (fun c => by by_cases h : (c.id == did) = true <;> simp [h, hs]) l

/-- A conditional signal update that touches neither `id` nor `status`
leaves every signal online flag unchanged. -/
theorem sigOnline_upd_invariant (did : String) (g : Signal → Signal)
    (hk : ∀ s, (g s).id = s.id) (hs : ∀ s, (g s).status = s.status)
    (l : List Signal) (id : String) :
    isOnlineIn Signal.id Signal.status
        (l.map (fun s => if s.id == did then g s else s)) id =
      isOnlineIn Signal.id Signal.status l id :=
  isOnlineIn_map _ _ id _
    (fun s => by by_cases h : (s.id == did) = true <;> simp [h, hk])
    (fun s => by by_cases h : (s.id == did) = true <;> simp [h, hs]) l

/-- The store left by a camera delete is either untouched (missing id) or
the filter dropping the id. -/
theorem deleteCameraRoute_store (cams : List Camera) (did : String) :
    (deleteCameraRoute cams did).store = cams ∨
    (deleteCameraRoute cams did).store = cams.filter (fun c => !(c.id == did)) := by
  unfold deleteCameraRoute
  cases cams.find? (fun c => c.id == did) <;> simp

/-- The store left by a signal delete is either untouched (missing id) or
the filter dropping the id. -/
theorem deleteSignalRoute_store (sigs : List Signal) (did : String) :
    (deleteSignalRoute sigs did).store = sigs ∨
    (deleteSignalRoute sigs did).store = sigs.filter (fun s => !(s.id == did)) := by
  unfold deleteSignalRoute
  cases sigs.find? (fun s => s.id == did) <;> simp

/-- Counterexample to C7: from a state holding one offline camera, a
camera simulator tick whose random rolls select the status mutation and
the value `online` flips the record online, yet the tick is neither a
device-initiated connect nor an operator-initiated update. -/
theorem simulatorFlipsStatusOnline :
    isOnlineIn Camera.id Camera.status (SysState.mk [demoCamera] []).cams "cam1" = false ∧
    isOnlineIn Camera.id Camera.status
      (step "k" (Ev.camSimTick 0 true 0 5) (SysState.mk [demoCamera] [])).cams "cam1" = true ∧
    claimAllowed "k" (Ev.camSimTick 0 true 0 5) = false := by
  refine ⟨rfl, ?_, rfl⟩
  decide

/-- C7 amended: across any single step of the system, a device record's
status flips to online only through a device-initiated connect carrying
the valid shared secret, an operator-initiated update (REST `PUT` or a
socket control mutation), or the background camera simulator's random
status mutation. -/
theorem onlineFlipOnlyViaAllowedPaths (secret : String) (e : Ev) (st : SysState)
    (id : String)
    (h : camFlips st (step secret e st) id ∨ sigFlips st (step secret e st) id) :
    amendedAllowed secret e = true := by
  cases e with
  | devConnect ty did key now =>
    cases hk : (key == secret) with
    | true => simp [amendedAllowed, claimAllowed, hk]
    | false =>
      exfalso
      have hstep : step secret (Ev.devConnect ty did key now) st = st := by
        simp [step, deviceConnectH, hk]
      rw [hstep] at h
      rcases h with ⟨hf, ht⟩ | ⟨hf, ht⟩ <;> rw [hf] at ht <;> exact Bool.false_ne_true ht
  | devData ty did m now =>
    exfalso
    have hcams : (step secret (Ev.devData ty did m now) st).cams = st.cams ∨
        (step secret (Ev.devData ty did m now) st).cams =
          st.cams.map (fun c => if c.id == did then deviceDataCamUpd now m c else c) := by
      simp only [step, deviceDataH]
      by_cases h1 : (ty == "camera") = true
      · simp [h1]
      · by_cases h2 : (ty == "signal") = true <;> simp [h1, h2]
    have hsigs : (step secret (Ev.devData ty did m now) st).sigs = st.sigs ∨
        (step secret (Ev.devData ty did m now) st).sigs =
          st.sigs.map (fun s => if s.id == did then deviceDataSigUpd now m s else s) := by
      simp only [step, deviceDataH]
      by_cases h1 : (ty == "camera") = true
      · simp [h1]
      · by_cases h2 : (ty == "signal") = true <;> simp [h1, h2]
    rcases h with ⟨hf, ht⟩ | ⟨hf, ht⟩
    · rcases hcams with hc | hc
      · rw [hc, hf] at ht; exact Bool.false_ne_true ht
      · rw [hc, camOnline_upd_invariant did (deviceDataCamUpd now m) (fun c => rfl) (fun c => rfl), hf] at ht
        exact Bool.false_ne_true ht
    · rcases hsigs with hc | hc
      · rw [hc, hf] at ht; exact Bool.false_ne_true ht
      · rw [hc, sigOnline_upd_invariant did (deviceDataSigUpd now m) (fun s => rfl) (fun s => rfl), hf] at ht
        exact Bool.false_ne_true ht
  | restPutCamera did b => simp [amendedAllowed, claimAllowed]
  | restPutSignal did b => simp [amendedAllowed, claimAllowed]
  | camControl did b => simp [amendedAllowed, claimAllowed]
  | sigControl did b => simp [amendedAllowed, claimAllowed]
  | camSimTick pick changeStatus statusPick now => simp [amendedAllowed]
  | restDeleteCamera did =>
    exfalso
    rcases h with ⟨hf, ht⟩ | ⟨hf, ht⟩
    · have hstore : (step secret (Ev.restDeleteCamera did) st).cams =
          (deleteCameraRoute st.cams did).store := rfl
      rcases deleteCameraRoute_store st.cams did with hd | hd
      · rw [hstore, hd, hf] at ht; exact Bool.false_ne_true ht
      · by_cases hid : id = did
        · subst hid
          rw [hstore, hd, isOnlineIn_filter_removed] at ht
          exact Bool.false_ne_true ht
        · rw [hstore, hd, isOnlineIn_filter_other _ _ id did hid, hf] at ht
          exact Bool.false_ne_true ht
    · have hstore : (step secret (Ev.restDeleteCamera did) st).sigs = st.sigs := rfl
      rw [hstore, hf] at ht; exact Bool.false_ne_true ht
  | restDeleteSignal did =>
    exfalso
    rcases h with ⟨hf, ht⟩ | ⟨hf, ht⟩
    · have hstore : (step secret (Ev.restDeleteSignal did) st).cams = st.cams := rfl
      rw [hstore, hf] at ht; exact Bool.false_ne_true ht
    · have hstore : (step secret (Ev.restDeleteSignal did) st).sigs =
          (deleteSignalRoute st.sigs did).store := rfl
      rcases deleteSignalRoute_store st.sigs did with hd | hd
      · rw [hstore, hd, hf] at ht; exact Bool.false_ne_true ht
      · by_cases hid : id = did
        · subst hid
          rw [hstore, hd, isOnlineIn_filter_removed] at ht
          exact Bool.false_ne_true ht
        · rw [hstore, hd, isOnlineIn_filter_other _ _ id did hid, hf] at ht
          exact Bool.false_ne_true ht
  | sigSimTick pick phasePick timePick congPick now =>
    exfalso
    have hcams : (step secret (Ev.sigSimTick pick phasePick timePick congPick now) st).cams =
        st.cams := by
      simp only [step]
      cases (st.sigs.filter (fun s => s.status == "online")).get?
          (pick % (st.sigs.filter (fun s => s.status == "online")).length) <;> rfl
    have hsigs : (step secret (Ev.sigSimTick pick phasePick timePick congPick now) st).sigs =
          st.sigs ∨
        ∃ d, (step secret (Ev.sigSimTick pick phasePick timePick congPick now) st).sigs =
          st.sigs.map (fun s => if s.id == d then
            sigSimUpd phasePick timePick congPick now s else s) := by
      simp only [step]
      cases (st.sigs.filter (fun s => s.status == "online")).get?
          (pick % (st.sigs.filter (fun s => s.status == "online")).length) with
      | none => left; rfl
      | some s0 => right; exact ⟨s0.id, rfl⟩
    rcases h with ⟨hf, ht⟩ | ⟨hf, ht⟩
    · rw [hcams, hf] at ht; exact Bool.false_ne_true ht
    · rcases hsigs with hc | ⟨d, hc⟩
      · rw [hc, hf] at ht; exact Bool.false_ne_true ht
      · rw [hc, sigOnline_upd_invariant d (sigSimUpd phasePick timePick congPick now) (fun s => rfl) (fun s => rfl), hf] at ht
        exact Bool.false_ne_true ht

/-- Witness for C7 amended: a valid-secret device connect flipping a
concrete offline camera online is on an allowed path. -/
theorem onlineFlipOnlyViaAllowedPathsWitness :
    (camFlips (SysState.mk [demoCamera] [])
        (step "k" (Ev.devConnect "camera" "cam1" "k" 5) (SysState.mk [demoCamera] [])) "cam1" ∨
     sigFlips (SysState.mk [demoCamera] [])
        (step "k" (Ev.devConnect "camera" "cam1" "k" 5) (SysState.mk [demoCamera] [])) "cam1") ∧
    amendedAllowed "k" (Ev.devConnect "camera" "cam1" "k" 5) = true :=
  ⟨Or.inl (by constructor <;> decide),
   onlineFlipOnlyViaAllowedPaths "k" (Ev.devConnect "camera" "cam1" "k" 5)
     (SysState.mk [demoCamera] []) "cam1" (Or.inl (by constructor <;> decide))⟩
